import Mathlib

/-!
Shallow embedding of the `python_analysis_server` scoring service
(`app.py`, `services/sentiment_service.py`, `services/voice_service.py`,
`services/facial_service.py`).

Conventions of the embedding:
* Text is a `List Char` (ASCII fragment of Python `str`); helper functions
  model the Python string/regex primitives the services use.
* Python floats are modelled as `ℚ`; `round(x, n)` is modelled as
  `roundQ n x` (round half up on exact rationals — Python's float
  `round` agrees on every input exercised by the theorems below, none of
  which sits on a representation tie).
* Fallible paths are explicit constructors: each analyze function returns
  an inductive result whose `err` constructor is the dict
  `{'timestamp': ..., 'error': ...}` the Python code builds, and whose
  `ok` constructor is the dict of the success path.  All embedded
  functions are total, modelling the services' catch-all `try/except`
  (no call raises outward).
* `FacialExpressionService` draws from `random`; its embedding takes the
  outcomes of the draws as an explicit `FacialDraws` argument whose
  `Valid` predicate states the ranges the `random` module guarantees.
* The NLTK English stop-word list, and TextBlob's polarity/subjectivity
  estimator, are external black-box data/algorithm providers (spec §6);
  the sentiment functions take them as parameters (`nltkStopwords`,
  `tbPolarity`, `tbSubjectivity`).  NLTK `word_tokenize` is modelled as
  whitespace splitting, which coincides with the punkt tokenizer on the
  punctuation-free text `filter_text` feeds it.
-/

section Spec2Proof

attribute [local semireducible] Rat.add Rat.mul Rat.sub Rat.inv Rat.ofScientific

/-- Python whitespace test for the ASCII fragment (`str.split`, `str.strip`,
regex `\s`). -/
def isWS (c : Char) : Bool := c.isWhitespace

/-- Regex `\w` (word character) on the ASCII fragment. -/
def wordChar (c : Char) : Bool := c.isAlphanum || c == '_'

/-- Python `str.lower()` on the ASCII fragment. -/
def pyLower (l : List Char) : List Char := l.map Char.toLower

/-- Python `str.strip()` with no arguments: remove leading and trailing
whitespace. -/
def pyStrip (l : List Char) : List Char :=
  ((l.dropWhile isWS).reverse.dropWhile isWS).reverse

/-- Accumulator loop behind `pySplit`: `cur` is the current word reversed,
`acc` the words already finished. -/
def pySplitAux : List Char → List Char → List (List Char) → List (List Char)
  | [], cur, acc => if cur = [] then acc else acc ++ [cur.reverse]
  | c :: rest, cur, acc =>
    if isWS c then
      pySplitAux rest [] (if cur = [] then acc else acc ++ [cur.reverse])
    else
      pySplitAux rest (c :: cur) acc

/-- Python `str.split()` with no arguments: the maximal whitespace-free runs,
empty pieces discarded. -/
def pySplit (l : List Char) : List (List Char) := pySplitAux l [] []

/-- Loop behind `countSub`: `skip` positions remain inside an already-counted
occurrence, so no new occurrence may start there. -/
def countSubAux (p : List Char) : List Char → Nat → Nat
  | [], _ => 0
  | _ :: rest, k + 1 => countSubAux p rest k
  | c :: rest, 0 =>
    if p.isPrefixOf (c :: rest) then
      countSubAux p rest (p.length - 1) + 1
    else
      countSubAux p rest 0

/-- Python `str.count(sub)` for a non-empty `sub`: non-overlapping
occurrences, scanned left to right. -/
def countSub (p : List Char) (l : List Char) : Nat := countSubAux p l 0

/-- Word boundary of regex `\b` on the side before a match whose pattern
starts with a word character: start of string, or a non-word character. -/
def boundaryBefore : Option Char → Bool
  | none => true
  | some c => !wordChar c

/-- Word boundary of regex `\b` on the side after a match whose pattern ends
with a word character: end of string, or a non-word character. -/
def boundaryAfter : List Char → Bool
  | [] => true
  | c :: _ => !wordChar c

/-- Loop behind `countWB`: `prev` is the character before the current
position (`none` at the start of the string), `skip` positions remain inside
an already-counted match. -/
def countWBAux (p : List Char) : Option Char → List Char → Nat → Nat
  | _, [], _ => 0
  | _, c :: rest, k + 1 => countWBAux p (some c) rest k
  | prev, c :: rest, 0 =>
    if p.isPrefixOf (c :: rest) && boundaryBefore prev
        && boundaryAfter (List.drop p.length (c :: rest)) then
      countWBAux p (some c) rest (p.length - 1) + 1
    else
      countWBAux p (some c) rest 0

/-- Number of matches `len(re.findall(r'\b' + re.escape(p) + r'\b', l))` for
a literal phrase `p` that starts and ends with a word character (every
lexicon phrase below does): non-overlapping left-to-right matches of `p`
with word boundaries on both sides. -/
def countWB (p : List Char) (l : List Char) : Nat := countWBAux p none l 0

/-- Sentence punctuation class of the regex `[.!?]+`. -/
def isSentencePunct (c : Char) : Bool := c == '.' || c == '!' || c == '?'

/-- Number of maximal runs of `[.!?]` characters; the `Bool` state records
whether the previous character was in the class. -/
def punctRuns : Bool → List Char → Nat
  | _, [] => 0
  | inRun, c :: rest =>
    if isSentencePunct c then
      (if inRun then 0 else 1) + punctRuns true rest
    else
      punctRuns false rest

/-- Python `len(re.split(r'[.!?]+', l))`: splitting on each maximal
punctuation run yields one more piece than there are runs (empty pieces at
the edges included, as `re.split` keeps them). -/
def sentenceCount (l : List Char) : Nat := punctRuns false l + 1

/-- Floor of a rational as explicit integer arithmetic (kernel-computable;
equal to `⌊x⌋` by `qfloor_eq_floor` below). -/
def qfloor (x : ℚ) : ℤ := x.num.fdiv x.den

/-- Python `round(x, n)` on exact rationals: round `x` to `n` decimal
places, halves up. -/
def roundQ (n : Nat) (x : ℚ) : ℚ :=
  (qfloor (x * (10 : ℚ) ^ n + 1 / 2) : ℚ) / (10 : ℚ) ^ n

theorem qfloor_eq_floor (x : ℚ) : qfloor x = ⌊x⌋ := by
  rw [Rat.floor_def, qfloor]
  exact Int.fdiv_eq_ediv _ (Int.ofNat_le.mpr (Nat.zero_le _))

theorem roundQ_eq_round (n : Nat) (x : ℚ) :
    roundQ n x = ((round (x * (10 : ℚ) ^ n) : ℤ) : ℚ) / (10 : ℚ) ^ n := by
  rw [roundQ, qfloor_eq_floor, round_eq]

theorem roundQ_le_roundQ (n : Nat) {x y : ℚ} (h : x ≤ y) :
    roundQ n x ≤ roundQ n y := by
  rw [roundQ, roundQ, qfloor_eq_floor, qfloor_eq_floor]
  have hp : (0 : ℚ) < (10 : ℚ) ^ n := by positivity
  have hf : ((⌊x * 10 ^ n + 1 / 2⌋ : ℤ) : ℚ) ≤ ((⌊y * 10 ^ n + 1 / 2⌋ : ℤ) : ℚ) := by
    exact_mod_cast Int.floor_mono (by nlinarith)
  exact div_le_div_of_nonneg_right hf hp.le

/-- Python `random.uniform a b` as a function of the raw `random.random()`
draw `u`: `a + (b - a) * u`. -/
def pyUniform (a b u : ℚ) : ℚ := a + (b - a) * u

/-- Python truthiness of an optional number (`if duration:`): `None` and `0`
are falsy. -/
def pyTruthy : Option ℚ → Bool
  | none => false
  | some d => d != 0

/-- Python `' '.join(words)`. -/
def joinSpace (ws : List (List Char)) : List Char := List.intercalate [' '] ws

/-! ## VoiceAnalysisService (services/voice_service.py) -/

/-- Filler set `self.filler_words`, in source listing order (a Python `set`
iterates in an unspecified order; every per-phrase count below is computed
independently of this order). -/
def filler_words : List (List Char) :=
  ["um", "uh", "er", "ah", "like", "you know", "so", "well",
   "actually", "basically", "literally", "obviously", "right",
   "okay", "alright", "i mean", "sort of", "kind of", "you see",
   "let me think", "how do i put this", "what i mean is"].map String.toList

/-- The set `self.confidence_indicators['strong']`. -/
def confidence_strong : List (List Char) :=
  ["definitely", "absolutely", "certainly", "clearly", "exactly",
   "precisely", "specifically", "without doubt", "for sure",
   "undoubtedly", "obviously", "of course"].map String.toList

/-- The set `self.confidence_indicators['weak']`. -/
def confidence_weak : List (List Char) :=
  ["maybe", "perhaps", "i think", "i guess", "probably",
   "sort of", "kind of", "i suppose", "i believe",
   "it seems", "i feel like", "possibly"].map String.toList

/-- The set `self.clarity_indicators['clear']`. -/
def clarity_clear : List (List Char) :=
  ["first", "second", "third", "next", "then", "finally",
   "in conclusion", "to summarize", "specifically",
   "for example", "such as", "in other words"].map String.toList

/-- The set `self.clarity_indicators['unclear']`. -/
def clarity_unclear : List (List Char) :=
  ["stuff", "things", "whatever", "something", "somehow",
   "somewhere", "whatnot", "and so on", "etcetera"].map String.toList

/-- Return value of `detect_filler_words`. -/
structure FillerAnalysis where
  total : Nat
  breakdown : List (List Char × Nat)
  unique_fillers : Nat
deriving DecidableEq, Repr

/-- The dict `pause_breakdown` inside the return value of `analyze_pauses`. -/
structure PauseBreakdown where
  commas : Nat
  periods : Nat
  semicolons : Nat
  dashes : Nat
  ellipses : Nat
deriving DecidableEq, Repr

/-- Return value of `analyze_pauses`. -/
structure PauseAnalysis where
  total_pauses : Nat
  pause_frequency_per_100_words : ℚ
  pause_breakdown : PauseBreakdown
  average_sentence_length : ℚ
  sentences_count : Nat
deriving DecidableEq, Repr

/-- The `confidence` block of `analyze_confidence_clarity`. -/
structure VoiceConfidence where
  score : ℚ
  level : String
  strong_indicators : Nat
  weak_indicators : Nat
deriving DecidableEq, Repr

/-- The `clarity` block of `analyze_confidence_clarity`. -/
structure VoiceClarity where
  score : ℚ
  level : String
  clear_indicators : Nat
  unclear_indicators : Nat
deriving DecidableEq, Repr

/-- Return value of `analyze_confidence_clarity`. -/
structure ConfidenceClarity where
  confidence : VoiceConfidence
  clarity : VoiceClarity
deriving DecidableEq, Repr

/-- Return value of `calculate_speaking_pace`. -/
structure SpeakingPace where
  words_per_minute : ℚ
  word_count : Nat
  duration_seconds : Option ℚ
  estimated_duration : Bool
  pace_category : String
deriving DecidableEq, Repr

/-- The `overall_voice_quality` block of `analyze_voice`. -/
structure OverallVoiceQuality where
  score : ℚ
  rating : String
deriving DecidableEq, Repr

/-- The success dict of `analyze_voice`. -/
structure VoiceOk where
  timestamp : String
  speaking_pace : SpeakingPace
  filler_words : FillerAnalysis
  pause_analysis : PauseAnalysis
  confidence_clarity : ConfidenceClarity
  overall_voice_quality : OverallVoiceQuality
deriving DecidableEq, Repr

/-- Return value of `analyze_voice`: the success dict, or the
`{'timestamp': ..., 'error': ...}` dict of the guard and of the catch-all
handler. -/
inductive VoiceResult where
  | err (timestamp : String) (error : String)
  | ok (r : VoiceOk)
deriving DecidableEq, Repr

/-- `VoiceAnalysisService.detect_filler_words`. -/
def detect_filler_words (text : List Char) : FillerAnalysis :=
  let text_lower := pyLower text
  let step := filler_words.foldl
    (fun acc filler =>
      let m := countWB filler text_lower
      if m > 0 then (acc.1 ++ [(filler, m)], acc.2 + m) else acc)
    ([], 0)
  { total := step.2, breakdown := step.1, unique_fillers := step.1.length }

/-- `VoiceAnalysisService.analyze_pauses`. -/
def analyze_pauses (text : List Char) : PauseAnalysis :=
  let commas := countSub [','] text
  let periods := countSub ['.'] text
  let semicolons := countSub [';'] text
  let dashes := countSub ['-', '-'] text + countSub ['—'] text
  let ellipses := countSub ['.', '.', '.'] text
  let sentences := sentenceCount text
  let words := (pySplit text).length
  let total_pauses := commas + periods + semicolons + dashes + ellipses
  let pause_frequency : ℚ := (total_pauses : ℚ) / (max words 1 : ℕ) * 100
  let avg_sentence_length : ℚ := (words : ℚ) / (max sentences 1 : ℕ)
  { total_pauses := total_pauses,
    pause_frequency_per_100_words := roundQ 2 pause_frequency,
    pause_breakdown :=
      { commas := commas, periods := periods, semicolons := semicolons,
        dashes := dashes, ellipses := ellipses },
    average_sentence_length := roundQ 2 avg_sentence_length,
    sentences_count := sentences }

/-- `VoiceAnalysisService.analyze_confidence_clarity`.  A membership test
`word in self.confidence_indicators[...]` compares a whitespace-split token
with each stored phrase for equality, so a multi-word phrase can only match
a token that equals the whole phrase. -/
def analyze_confidence_clarity (text : List Char) : ConfidenceClarity :=
  let words := pySplit (pyLower text)
  let strong_confidence := (words.filter (fun w => w ∈ confidence_strong)).length
  let weak_confidence := (words.filter (fun w => w ∈ confidence_weak)).length
  let clear_indicators := (words.filter (fun w => w ∈ clarity_clear)).length
  let unclear_indicators := (words.filter (fun w => w ∈ clarity_unclear)).length
  let confidence_score : ℚ :=
    ((strong_confidence : ℚ) - (weak_confidence : ℚ)) / (max words.length 1 : ℕ)
  let clarity_score : ℚ :=
    ((clear_indicators : ℚ) - (unclear_indicators : ℚ)) / (max words.length 1 : ℕ)
  let confidence_level :=
    if confidence_score > 0.02 then "high"
    else if confidence_score < -0.02 then "low" else "medium"
  let clarity_level :=
    if clarity_score > 0.01 then "high"
    else if clarity_score < -0.01 then "low" else "medium"
  { confidence :=
      { score := roundQ 4 confidence_score, level := confidence_level,
        strong_indicators := strong_confidence, weak_indicators := weak_confidence },
    clarity :=
      { score := roundQ 4 clarity_score, level := clarity_level,
        clear_indicators := clear_indicators, unclear_indicators := unclear_indicators } }

/-- `VoiceAnalysisService.calculate_speaking_pace`.  `if duration:` is Python
truthiness: the actual-duration branch is taken only for a present, non-zero
duration, so the division there never divides by zero. -/
def calculate_speaking_pace (text : List Char) (duration : Option ℚ) : SpeakingPace :=
  let words := pySplit text
  let word_count := words.length
  let wpm : ℚ :=
    if pyTruthy duration then
      ((word_count : ℚ) / duration.getD 0) * 60
    else
      let estimated_duration_minutes : ℚ := (word_count : ℚ) / 180
      if estimated_duration_minutes > 0 then (word_count : ℚ) / estimated_duration_minutes
      else 0
  let pace_category :=
    if wpm < 120 then "slow" else if wpm > 200 then "fast" else "normal"
  { words_per_minute := roundQ 1 wpm, word_count := word_count,
    duration_seconds := duration, estimated_duration := !pyTruthy duration,
    pace_category := pace_category }

/-- `VoiceAnalysisService.analyze_voice`.  The embedded body is total, so the
`except` branch of the source (which would also return a `.err` dict) is
unreachable in the model. -/
def analyze_voice (text : List Char) (timestamp : String) (duration : Option ℚ) :
    VoiceResult :=
  if pyStrip text = [] then
    .err timestamp "No text provided for voice analysis"
  else
    let speaking_pace := calculate_speaking_pace text duration
    let filler_analysis := detect_filler_words text
    let pause_analysis := analyze_pauses text
    let confidence_clarity := analyze_confidence_clarity text
    let pace_score : ℚ := if speaking_pace.pace_category = "normal" then 1 else 0.7
    let filler_score : ℚ :=
      max 0 (1 - ((filler_analysis.total : ℚ) / (max speaking_pace.word_count 1 : ℕ)) * 5)
    let confidence_score : ℚ := (confidence_clarity.confidence.score + 1) / 2
    let clarity_score : ℚ := (confidence_clarity.clarity.score + 1) / 2
    let overall_score := (pace_score + filler_score + confidence_score + clarity_score) / 4
    .ok
      { timestamp := timestamp, speaking_pace := speaking_pace,
        filler_words := filler_analysis, pause_analysis := pause_analysis,
        confidence_clarity := confidence_clarity,
        overall_voice_quality :=
          { score := roundQ 3 overall_score,
            rating :=
              if overall_score > 0.8 then "excellent"
              else if overall_score > 0.6 then "good" else "needs_improvement" } }

/-- Python `'error' in a` for a voice result dict. -/
def VoiceResult.hasError : VoiceResult → Bool
  | .err _ _ => true
  | .ok _ => false

/-- Timestamp field of a voice result (present on both paths). -/
def VoiceResult.timestampOf : VoiceResult → String
  | .err ts _ => ts
  | .ok r => r.timestamp

/-- The `speaking_pace` block of a voice result, when the analysis
succeeded. -/
def VoiceResult.speakingPace : VoiceResult → Option SpeakingPace
  | .err _ _ => none
  | .ok r => some r.speaking_pace

/-- Lookup `a['speaking_pace']['words_per_minute']` for a summary entry;
the `0` default is unreachable for entries without `'error'` (the source
would raise `KeyError` there). -/
def VoiceResult.wpmD : VoiceResult → ℚ
  | .err _ _ => 0
  | .ok r => r.speaking_pace.words_per_minute

/-- Lookup `a['filler_words']['total'] / max(a['speaking_pace']['word_count'], 1)`
for a summary entry; `0` is unreachable for valid entries. -/
def VoiceResult.fillerRateD : VoiceResult → ℚ
  | .err _ _ => 0
  | .ok r => (r.filler_words.total : ℚ) / (max r.speaking_pace.word_count 1 : ℕ)

/-- Lookup `a['confidence_clarity']['confidence']['score']`; `0` unreachable
for valid entries. -/
def VoiceResult.confScoreD : VoiceResult → ℚ
  | .err _ _ => 0
  | .ok r => r.confidence_clarity.confidence.score

/-- Lookup `a['confidence_clarity']['clarity']['score']`; `0` unreachable for
valid entries. -/
def VoiceResult.clarScoreD : VoiceResult → ℚ
  | .err _ _ => 0
  | .ok r => r.confidence_clarity.clarity.score

/-- Lookup `a['overall_voice_quality']['score']`; `0` unreachable for valid
entries. -/
def VoiceResult.overallD : VoiceResult → ℚ
  | .err _ _ => 0
  | .ok r => r.overall_voice_quality.score

/-- The `summary` dict of `get_voice_summary`. -/
structure VoiceSummary where
  average_wpm : ℚ
  average_filler_rate : ℚ
  average_confidence_score : ℚ
  average_clarity_score : ℚ
  overall_voice_quality : ℚ
  total_analyses : Nat
deriving DecidableEq, Repr

/-- Non-`None` return values of `get_voice_summary`. -/
inductive VoiceSummaryResult where
  | err (error : String)
  | summary (s : VoiceSummary)
deriving DecidableEq, Repr

/-- `VoiceAnalysisService.get_voice_summary`; `None` is `none`. -/
def get_voice_summary (analyses : List VoiceResult) : Option VoiceSummaryResult :=
  if analyses = [] then none
  else
    let valid := analyses.filter (fun a => !a.hasError)
    if valid = [] then some (.err "No valid voice analyses to summarize")
    else
      let n : ℚ := (valid.length : ℚ)
      let avg_wpm := (valid.map VoiceResult.wpmD).sum / n
      let avg_filler_rate := (valid.map VoiceResult.fillerRateD).sum / n
      let avg_confidence := (valid.map VoiceResult.confScoreD).sum / n
      let avg_clarity := (valid.map VoiceResult.clarScoreD).sum / n
      let avg_overall_score := (valid.map VoiceResult.overallD).sum / n
      some (.summary
        { average_wpm := roundQ 1 avg_wpm,
          average_filler_rate := roundQ 2 (avg_filler_rate * 100),
          average_confidence_score := roundQ 3 avg_confidence,
          average_clarity_score := roundQ 3 avg_clarity,
          overall_voice_quality := roundQ 3 avg_overall_score,
          total_analyses := valid.length })

/-! ## SentimentAnalysisService (services/sentiment_service.py)

The NLTK English stop-word list is external data loaded at start-up
(`stopwords.words('english')`); the functions below take it as the
parameter `nltkStopwords`.  TextBlob's polarity/subjectivity estimator is an
external lexicon algorithm; `analyze_sentiment` takes it as the parameters
`tbPolarity` and `tbSubjectivity` (both deterministic functions of the
filtered text). -/

/-- The set `self.interview_stop_words`. -/
def interview_stop_words : List (List Char) :=
  ["um", "uh", "er", "ah", "like", "you", "know", "so", "well",
   "actually", "basically", "literally", "obviously", "right",
   "okay", "alright", "mean", "sort", "kind", "think", "guess"].map String.toList

/-- The set `self.confidence_indicators['high']` of the sentiment service. -/
def confidence_high : List (List Char) :=
  ["definitely", "absolutely", "certainly", "clearly", "exactly",
   "precisely", "specifically", "confident", "sure", "positive",
   "convinced", "determined", "decisive", "assertive"].map String.toList

/-- The set `self.confidence_indicators['low']` of the sentiment service. -/
def confidence_low : List (List Char) :=
  ["maybe", "perhaps", "possibly", "might", "could", "probably",
   "unsure", "uncertain", "confused", "doubt", "hesitant",
   "tentative", "vague", "unclear"].map String.toList

/-- The set `self.professional_words`. -/
def professional_words : List (List Char) :=
  ["experience", "skills", "expertise", "knowledge", "proficient",
   "accomplished", "achieved", "successful", "leadership", "management",
   "innovative", "creative", "analytical", "strategic", "efficient",
   "collaborative", "communication", "problem-solving", "results",
   "improvement", "optimization", "development", "implementation"].map String.toList

/-- Python `re.sub(r'[^\w\s]', ' ', l)`: replace every character that is
neither a word character nor whitespace by a space. -/
def stripPunct (l : List Char) : List Char :=
  l.map (fun c => if wordChar c || isWS c then c else ' ')

/-- NLTK `word_tokenize`, modelled as whitespace splitting: `filter_text`
only ever tokenizes text whose punctuation `stripPunct` has already replaced
by spaces, and on such text the punkt tokenizer splits on whitespace. -/
def word_tokenize (l : List Char) : List (List Char) := pySplit l

/-- First-occurrence key order of `collections.Counter(l)` (dicts preserve
insertion order). -/
def counterKeys (l : List (List Char)) : List (List Char) :=
  l.foldl (fun acc w => if w ∈ acc then acc else acc ++ [w]) []

/-- Python `Counter(l).most_common(n)`: items with their counts, sorted by
count descending, stable in first-insertion order on ties, first `n` kept. -/
def most_common (n : Nat) (l : List (List Char)) : List (List Char × Nat) :=
  (((counterKeys l).map (fun w => (w, l.count w))).mergeSort
    (fun a b => decide (b.2 ≤ a.2))).take n

/-- `SentimentAnalysisService.filter_text`: lowercase, strip punctuation,
tokenize, drop stop words (NLTK English list united with the interview set)
and tokens of length at most 2; returns the token list and their
space-joined text. -/
def filter_text (nltkStopwords : List (List Char)) (text : List Char) :
    List (List Char) × List Char :=
  let lowered := pyLower text
  let cleaned := stripPunct lowered
  let tokens := word_tokenize cleaned
  let filtered_tokens := tokens.filter
    (fun w => decide (w ∉ nltkStopwords ∧ w ∉ interview_stop_words ∧ 2 < w.length))
  (filtered_tokens, joinSpace filtered_tokens)

/-- The `sentiment` block of `analyze_sentiment`. -/
structure SentimentBlock where
  polarity : ℚ
  subjectivity : ℚ
  category : String
  intensity : ℚ
deriving DecidableEq, Repr

/-- Return value of the sentiment service's `analyze_confidence`. -/
structure SentimentConfidence where
  score : ℚ
  level : String
  high_confidence_words : Nat
  low_confidence_words : Nat
deriving DecidableEq, Repr

/-- Return value of `analyze_professionalism`. -/
structure Professionalism where
  score : ℚ
  level : String
  professional_words_count : Nat
deriving DecidableEq, Repr

/-- The `word_analysis` block of `analyze_sentiment`. -/
structure WordAnalysis where
  total_words : Nat
  filtered_words : Nat
  most_common : List (List Char × Nat)
deriving DecidableEq, Repr

/-- The success dict of `analyze_sentiment`. -/
structure SentimentOk where
  timestamp : String
  original_text : List Char
  filtered_text : List Char
  sentiment : SentimentBlock
  confidence : SentimentConfidence
  professionalism : Professionalism
  word_analysis : WordAnalysis
deriving DecidableEq, Repr

/-- Return value of `analyze_sentiment`: the success dict, or the
`{'timestamp': ..., 'error': ...}` dict of the empty-content guard and of
the catch-all handler. -/
inductive SentimentResult where
  | err (timestamp : String) (error : String)
  | ok (r : SentimentOk)
deriving DecidableEq, Repr

/-- `SentimentAnalysisService.analyze_confidence`. -/
def analyze_confidence (tokens : List (List Char)) : SentimentConfidence :=
  let high_confidence_count := (tokens.filter (fun t => t ∈ confidence_high)).length
  let low_confidence_count := (tokens.filter (fun t => t ∈ confidence_low)).length
  let confidence_score : ℚ :=
    ((high_confidence_count : ℚ) - (low_confidence_count : ℚ)) / (max tokens.length 1 : ℕ)
  let level :=
    if confidence_score > 0.1 then "high"
    else if confidence_score < -0.1 then "low" else "medium"
  { score := roundQ 3 confidence_score, level := level,
    high_confidence_words := high_confidence_count,
    low_confidence_words := low_confidence_count }

/-- `SentimentAnalysisService.analyze_professionalism`. -/
def analyze_professionalism (tokens : List (List Char)) : Professionalism :=
  let professional_count := (tokens.filter (fun t => t ∈ professional_words)).length
  let professionalism_score : ℚ := (professional_count : ℚ) / (max tokens.length 1 : ℕ)
  let level :=
    if professionalism_score > 0.15 then "high"
    else if professionalism_score > 0.05 then "medium" else "low"
  { score := roundQ 3 professionalism_score, level := level,
    professional_words_count := professional_count }

/-- `SentimentAnalysisService.analyze_sentiment`.  The embedded body is
total, so the catch-all `except` branch of the source is unreachable in the
model. -/
def analyze_sentiment (nltkStopwords : List (List Char))
    (tbPolarity tbSubjectivity : List Char → ℚ)
    (text : List Char) (timestamp : String) : SentimentResult :=
  let ft := filter_text nltkStopwords text
  let filtered_tokens := ft.1
  let filtered_text := ft.2
  if pyStrip filtered_text = [] then
    .err timestamp "No meaningful content to analyze after filtering"
  else
    let polarity := tbPolarity filtered_text
    let subjectivity := tbSubjectivity filtered_text
    let sentiment_category :=
      if polarity > 0.1 then "positive"
      else if polarity < -0.1 then "negative" else "neutral"
    .ok
      { timestamp := timestamp, original_text := text, filtered_text := filtered_text,
        sentiment :=
          { polarity := roundQ 3 polarity, subjectivity := roundQ 3 subjectivity,
            category := sentiment_category, intensity := |polarity| },
        confidence := analyze_confidence filtered_tokens,
        professionalism := analyze_professionalism filtered_tokens,
        word_analysis :=
          { total_words := (pySplit text).length,
            filtered_words := filtered_tokens.length,
            most_common := most_common 5 filtered_tokens } }

/-- Python `'error' in a` for a sentiment result dict. -/
def SentimentResult.hasError : SentimentResult → Bool
  | .err _ _ => true
  | .ok _ => false

/-- Timestamp field of a sentiment result (present on both paths). -/
def SentimentResult.timestampOf : SentimentResult → String
  | .err ts _ => ts
  | .ok r => r.timestamp

/-- Lookup `a['sentiment']['polarity']` for a summary entry; `0` is
unreachable for entries without `'error'` (the source would raise `KeyError`
there). -/
def SentimentResult.polarityD : SentimentResult → ℚ
  | .err _ _ => 0
  | .ok r => r.sentiment.polarity

/-- Lookup `a['sentiment']['subjectivity']`; `0` unreachable for valid
entries. -/
def SentimentResult.subjectivityD : SentimentResult → ℚ
  | .err _ _ => 0
  | .ok r => r.sentiment.subjectivity

/-- Lookup `a['confidence']['score']`; `0` unreachable for valid entries. -/
def SentimentResult.confScoreD : SentimentResult → ℚ
  | .err _ _ => 0
  | .ok r => r.confidence.score

/-- Lookup `a['professionalism']['score']`; `0` unreachable for valid
entries. -/
def SentimentResult.profScoreD : SentimentResult → ℚ
  | .err _ _ => 0
  | .ok r => r.professionalism.score

/-- The `summary` dict of `get_overall_sentiment_summary`. -/
structure SentimentSummary where
  average_polarity : ℚ
  average_subjectivity : ℚ
  average_confidence : ℚ
  average_professionalism : ℚ
  sentiment_trend : String
  total_analyses : Nat
deriving DecidableEq, Repr

/-- Non-`None` return values of `get_overall_sentiment_summary`. -/
inductive SentimentSummaryResult where
  | err (error : String)
  | summary (s : SentimentSummary)
deriving DecidableEq, Repr

/-- `SentimentAnalysisService.get_overall_sentiment_summary`; `None` is
`none`. -/
def get_overall_sentiment_summary (analyses : List SentimentResult) :
    Option SentimentSummaryResult :=
  if analyses = [] then none
  else
    let valid := analyses.filter (fun a => !a.hasError)
    if valid = [] then some (.err "No valid analyses to summarize")
    else
      let n : ℚ := (valid.length : ℚ)
      let avg_polarity := (valid.map SentimentResult.polarityD).sum / n
      let avg_subjectivity := (valid.map SentimentResult.subjectivityD).sum / n
      let avg_confidence := (valid.map SentimentResult.confScoreD).sum / n
      let avg_professionalism := (valid.map SentimentResult.profScoreD).sum / n
      let polarities := valid.map SentimentResult.polarityD
      let trend :=
        if polarities.length > 1 then
          let k := polarities.length / 2
          let first_half_avg := (polarities.take k).sum / (k : ℚ)
          let second_half_avg :=
            (polarities.drop k).sum / ((polarities.length - k : ℕ) : ℚ)
          if second_half_avg - first_half_avg > 0.2 then "improving"
          else if first_half_avg - second_half_avg > 0.2 then "declining"
          else "stable"
        else "stable"
      some (.summary
        { average_polarity := roundQ 3 avg_polarity,
          average_subjectivity := roundQ 3 avg_subjectivity,
          average_confidence := roundQ 3 avg_confidence,
          average_professionalism := roundQ 3 avg_professionalism,
          sentiment_trend := trend,
          total_analyses := valid.length })

/-! ## FacialExpressionService (services/facial_service.py)

The service's only effect is drawing from the `random` module.  The
embedding takes the outcomes of one call's draws as an explicit
`FacialDraws` value: raw `random.random()` results in `[0, 1)` for each
`uniform`/comparison site and a list index for each `random.choice` site.
`FacialDraws.Valid` states exactly the ranges the `random` module
guarantees, and the theorems below quantify over every valid draw. -/

/-- The list `self.expressions`. -/
def expressions : List String :=
  ["neutral", "happy", "confident", "focused", "thoughtful",
   "concerned", "surprised", "confused", "nervous", "engaged"]

/-- The list `self.engagement_levels`. -/
def engagement_levels : List String := ["low", "medium", "high"]

/-- The list `self.eye_contact_patterns`. -/
def eye_contact_patterns : List String := ["poor", "intermittent", "good", "excellent"]

/-- The head-tilt options of the posture block. -/
def head_tilt_options : List String := ["none", "slight_left", "slight_right", "forward"]

/-- Outcome of one `analyze_facial_expression` call's random draws.  `...U`
and `...R` fields are raw `random.random()` values; `...Idx` fields are the
indices `random.choice` picked. -/
structure FacialDraws where
  primaryIdx : Nat
  confU : ℚ
  secondaryR : ℚ
  secondaryIdx : Nat
  secondaryU : ℚ
  engagementIdx : Nat
  engLowU : ℚ
  engMedU : ℚ
  engHighU : ℚ
  eyeIdx : Nat
  eyePoorU : ℚ
  eyeIntU : ℚ
  eyeGoodU : ℚ
  eyeExcU : ℚ
  uprightR : ℚ
  leanR : ℚ
  slouchR : ℚ
  headTiltIdx : Nat
deriving DecidableEq, Repr

/-- Range `random.random()` guarantees for a raw draw. -/
def unitDraw (u : ℚ) : Prop := 0 ≤ u ∧ u < 1

instance (u : ℚ) : Decidable (unitDraw u) := by unfold unitDraw; infer_instance

/-- Every draw outcome is in the range the `random` module guarantees:
raw draws in `[0, 1)`, choice indices within the chosen list. -/
def FacialDraws.Valid (d : FacialDraws) : Prop :=
  d.primaryIdx < 10 ∧ unitDraw d.confU ∧ unitDraw d.secondaryR ∧
  d.secondaryIdx < 9 ∧ unitDraw d.secondaryU ∧
  d.engagementIdx < 3 ∧ unitDraw d.engLowU ∧ unitDraw d.engMedU ∧ unitDraw d.engHighU ∧
  d.eyeIdx < 4 ∧ unitDraw d.eyePoorU ∧ unitDraw d.eyeIntU ∧ unitDraw d.eyeGoodU ∧
  unitDraw d.eyeExcU ∧ unitDraw d.uprightR ∧ unitDraw d.leanR ∧ unitDraw d.slouchR ∧
  d.headTiltIdx < 4

instance (d : FacialDraws) : Decidable d.Valid := by unfold FacialDraws.Valid; infer_instance

/-- The `primary` block of the facial expression result. -/
structure PrimaryExpression where
  expression : String
  confidence : ℚ
deriving DecidableEq, Repr

/-- One entry of the `secondary` expression list. -/
structure SecondaryExpression where
  expression : String
  confidence : ℚ
deriving DecidableEq, Repr

/-- The `facial_expression` block. -/
structure FacialExpressionBlock where
  primary : PrimaryExpression
  secondary : List SecondaryExpression
deriving DecidableEq, Repr

/-- The `engagement` block. -/
structure Engagement where
  level : String
  score : ℚ
deriving DecidableEq, Repr

/-- The `eye_contact` block. -/
structure EyeContact where
  pattern : String
  score : ℚ
deriving DecidableEq, Repr

/-- The `posture` block. -/
structure Posture where
  upright : Bool
  leaning_forward : Bool
  slouching : Bool
  head_tilt : String
deriving DecidableEq, Repr

/-- The `professionalism` block of the facial result. -/
structure ProfessionalismBlock where
  score : ℚ
  rating : String
deriving DecidableEq, Repr

/-- The success dict of `analyze_facial_expression`. -/
structure FacialOk where
  timestamp : String
  facial_expression : FacialExpressionBlock
  engagement : Engagement
  eye_contact : EyeContact
  posture : Posture
  professionalism : ProfessionalismBlock
  analysis_type : String
  image_processed : Bool
deriving DecidableEq, Repr

/-- Return value of `analyze_facial_expression`: the success dict, or the
`{'timestamp': ..., 'error': ...}` dict of the catch-all handler (the
summary below also accepts caller-kept error entries). -/
inductive FacialResult where
  | err (timestamp : String) (error : String)
  | ok (r : FacialOk)
deriving DecidableEq, Repr

/-- `FacialExpressionService.analyze_facial_expression` as a function of the
draw outcomes `d`; `image_data` is the truthiness of the optional
`image_data` argument (its content is never inspected).  The embedded body
is total, so the catch-all `except` branch of the source is unreachable in
the model. -/
def analyze_facial_expression (d : FacialDraws) (timestamp : String)
    (image_data : Bool) : FacialResult :=
  let primary_expression := expressions.getD d.primaryIdx "neutral"
  let confidence := roundQ 3 (pyUniform 0.7 0.95 d.confU)
  let secondary_expressions : List SecondaryExpression :=
    if d.secondaryR > 0.6 then
      [{ expression :=
           (expressions.filter (fun e => e ≠ primary_expression)).getD d.secondaryIdx "neutral",
         confidence := roundQ 3 (pyUniform 0.3 0.6 d.secondaryU) }]
    else []
  let engagement_level := engagement_levels.getD d.engagementIdx "low"
  let engagement_score :=
    if engagement_level = "low" then roundQ 3 (pyUniform 0.2 0.4 d.engLowU)
    else if engagement_level = "medium" then roundQ 3 (pyUniform 0.4 0.7 d.engMedU)
    else roundQ 3 (pyUniform 0.7 0.9 d.engHighU)
  let eye_contact := eye_contact_patterns.getD d.eyeIdx "poor"
  let eye_contact_score :=
    if eye_contact = "poor" then roundQ 3 (pyUniform 0.1 0.3 d.eyePoorU)
    else if eye_contact = "intermittent" then roundQ 3 (pyUniform 0.3 0.5 d.eyeIntU)
    else if eye_contact = "good" then roundQ 3 (pyUniform 0.5 0.8 d.eyeGoodU)
    else roundQ 3 (pyUniform 0.8 1 d.eyeExcU)
  let upright := decide (d.uprightR > 0.3)
  let leaning_forward := decide (d.leanR > 0.7)
  let slouching := decide (d.slouchR > 0.8)
  let head_tilt := head_tilt_options.getD d.headTiltIdx "none"
  let professionalism_factors : List ℚ :=
    [if upright then 1 else 0.7,
     if eye_contact = "good" ∨ eye_contact = "excellent" then 1 else 0.6,
     if primary_expression = "confident" ∨ primary_expression = "focused" ∨
        primary_expression = "engaged" then 1 else 0.8,
     if !slouching then 1 else 0.5]
  let professionalism_score := professionalism_factors.sum / (professionalism_factors.length : ℚ)
  .ok
    { timestamp := timestamp,
      facial_expression :=
        { primary := { expression := primary_expression, confidence := confidence },
          secondary := secondary_expressions },
      engagement := { level := engagement_level, score := engagement_score },
      eye_contact := { pattern := eye_contact, score := eye_contact_score },
      posture :=
        { upright := upright, leaning_forward := leaning_forward,
          slouching := slouching, head_tilt := head_tilt },
      professionalism :=
        { score := roundQ 3 professionalism_score,
          rating :=
            if professionalism_score > 0.8 then "excellent"
            else if professionalism_score > 0.6 then "good" else "needs_improvement" },
      analysis_type := "mockup",
      image_processed := image_data }

/-- Python `'error' in a` for a facial result dict. -/
def FacialResult.hasError : FacialResult → Bool
  | .err _ _ => true
  | .ok _ => false

/-- Timestamp field of a facial result (present on both paths). -/
def FacialResult.timestampOf : FacialResult → String
  | .err ts _ => ts
  | .ok r => r.timestamp

/-- Lookup `a['facial_expression']['primary']['expression']` for a summary
entry; `""` is unreachable for entries without `'error'`. -/
def FacialResult.exprD : FacialResult → String
  | .err _ _ => ""
  | .ok r => r.facial_expression.primary.expression

/-- Lookup `a['engagement']['score']`; `0` unreachable for valid entries. -/
def FacialResult.engScoreD : FacialResult → ℚ
  | .err _ _ => 0
  | .ok r => r.engagement.score

/-- Lookup `a['eye_contact']['score']`; `0` unreachable for valid entries. -/
def FacialResult.eyeScoreD : FacialResult → ℚ
  | .err _ _ => 0
  | .ok r => r.eye_contact.score

/-- Lookup `a['professionalism']['score']`; `0` unreachable for valid
entries. -/
def FacialResult.facialProfD : FacialResult → ℚ
  | .err _ _ => 0
  | .ok r => r.professionalism.score

/-- One step of `expression_counts[expr] = expression_counts.get(expr, 0) + 1`
on an insertion-ordered association list. -/
def bumpCount (acc : List (String × Nat)) (e : String) : List (String × Nat) :=
  if acc.any (fun p => p.1 = e) then
    acc.map (fun p => if p.1 = e then (p.1, p.2 + 1) else p)
  else acc ++ [(e, 1)]

/-- Python `max(items, key=lambda x: x[1])` over the remaining items with a
running best: a later item replaces the best only when strictly greater, so
the first maximal item wins. -/
def maxByCount : List (String × Nat) → (String × Nat) → (String × Nat)
  | [], best => best
  | p :: rest, best => maxByCount rest (if p.2 > best.2 then p else best)

/-- The `summary` dict of `get_facial_summary`. -/
structure FacialSummary where
  most_common_expression : String
  expression_frequency : Nat
  average_engagement : ℚ
  average_eye_contact : ℚ
  average_professionalism : ℚ
  expression_distribution : List (String × Nat)
  total_analyses : Nat
deriving DecidableEq, Repr

/-- Non-`None` return values of `get_facial_summary`. -/
inductive FacialSummaryResult where
  | err (error : String)
  | summary (s : FacialSummary)
deriving DecidableEq, Repr

/-- `FacialExpressionService.get_facial_summary`; `None` is `none`. -/
def get_facial_summary (analyses : List FacialResult) : Option FacialSummaryResult :=
  if analyses = [] then none
  else
    let valid := analyses.filter (fun a => !a.hasError)
    if valid = [] then some (.err "No valid facial analyses to summarize")
    else
      let expression_counts := valid.foldl (fun acc a => bumpCount acc a.exprD) []
      let n : ℚ := (valid.length : ℚ)
      let avg_engagement := (valid.map FacialResult.engScoreD).sum / n
      let avg_eye_contact := (valid.map FacialResult.eyeScoreD).sum / n
      let avg_professionalism := (valid.map FacialResult.facialProfD).sum / n
      let most_common_expression :=
        match expression_counts with
        | [] => ("neutral", 0)
        | p :: rest => maxByCount rest p
      some (.summary
        { most_common_expression := most_common_expression.1,
          expression_frequency := most_common_expression.2,
          average_engagement := roundQ 3 avg_engagement,
          average_eye_contact := roundQ 3 avg_eye_contact,
          average_professionalism := roundQ 3 avg_professionalism,
          expression_distribution := expression_counts,
          total_analyses := valid.length })

/-! ## Dispatcher (app.py) -/

/-- The merged success body of the `/analyze/comprehensive` route. -/
structure ComprehensiveOk where
  timestamp : String
  sentiment : SentimentResult
  voice : VoiceResult
  facial : FacialResult
deriving DecidableEq, Repr

/-- `comprehensive_analysis` of `app.py`: validate the required fields, run
the three scorers, merge their (never-raising) results under the shared
timestamp.  `Except.error` is the 400 response `{'error': 'Text and
timestamp are required'}`; the timestamp's truthiness is modelled as
non-emptiness of the opaque timestamp string.  The facial scorer is the only
consumer of the random draws `d`. -/
def comprehensive_analysis (nltkStopwords : List (List Char))
    (tbPolarity tbSubjectivity : List Char → ℚ) (d : FacialDraws)
    (text : List Char) (timestamp : String) (duration : Option ℚ)
    (image_data : Bool) : Except String ComprehensiveOk :=
  if text = [] ∨ timestamp = "" then .error "Text and timestamp are required"
  else
    .ok
      { timestamp := timestamp,
        sentiment := analyze_sentiment nltkStopwords tbPolarity tbSubjectivity text timestamp,
        voice := analyze_voice text timestamp duration,
        facial := analyze_facial_expression d timestamp image_data }

/-- The sentiment field of a comprehensive response, when the route-level
validation passed. -/
def comprehensiveSentiment : Except String ComprehensiveOk → Option SentimentResult
  | .error _ => none
  | .ok r => some r.sentiment

/-- The voice field of a comprehensive response, when the route-level
validation passed. -/
def comprehensiveVoice : Except String ComprehensiveOk → Option VoiceResult
  | .error _ => none
  | .ok r => some r.voice

/-! ## Helper lemmas -/

theorem toLower_of_isWS {c : Char} (h : isWS c = true) : Char.toLower c = c := by
  simp only [isWS, Char.isWhitespace, Bool.or_eq_true, decide_eq_true_eq] at h
  obtain ((h | h) | h) | h := h <;> subst h <;> decide

theorem pySplitAux_eq_nil_iff (l : List Char) :
    ∀ (cur : List Char) (acc : List (List Char)),
      pySplitAux l cur acc = [] ↔ acc = [] ∧ cur = [] ∧ ∀ c ∈ l, isWS c = true := by
  induction l with
  | nil =>
    intro cur acc
    by_cases hc : cur = [] <;> simp [pySplitAux, hc]
  | cons c rest ih =>
    intro cur acc
    by_cases hw : isWS c
    · by_cases hc : cur = [] <;> simp [pySplitAux, hw, hc, ih]
    · simp only [pySplitAux, hw, if_false, Bool.false_eq_true, ih]
      simp [hw]

theorem pySplit_eq_nil_iff (l : List Char) :
    pySplit l = [] ↔ ∀ c ∈ l, isWS c = true := by
  simp [pySplit, pySplitAux_eq_nil_iff]

theorem pyStrip_eq_nil_iff (l : List Char) :
    pyStrip l = [] ↔ ∀ c ∈ l, isWS c = true := by
  unfold pyStrip
  rw [List.reverse_eq_nil_iff, List.dropWhile_eq_nil_iff]
  constructor
  · intro h c hc
    rw [← List.takeWhile_append_dropWhile (p := isWS) (l := l)] at hc
    rcases List.mem_append.mp hc with h1 | h2
    · exact List.mem_takeWhile_imp h1
    · exact h c (List.mem_reverse.mpr h2)
  · intro h x hx
    exact h x ((List.dropWhile_sublist (l := l) (p := isWS)).subset (List.mem_reverse.mp hx))

theorem stripPunct_pyLower_all_ws {l : List Char} (h : ∀ c ∈ l, isWS c = true) :
    ∀ c ∈ stripPunct (pyLower l), isWS c = true := by
  intro c hc
  simp only [stripPunct, pyLower, List.mem_map] at hc
  obtain ⟨b, hb, rfl⟩ := hc
  obtain ⟨a, ha, rfl⟩ := hb
  have hwa := h a ha
  rw [toLower_of_isWS hwa]
  simp [hwa]

theorem filter_text_all_ws (sw : List (List Char)) {l : List Char}
    (h : ∀ c ∈ l, isWS c = true) : filter_text sw l = ([], []) := by
  unfold filter_text
  have htok : word_tokenize (stripPunct (pyLower l)) = [] := by
    unfold word_tokenize
    exact (pySplit_eq_nil_iff _).mpr (stripPunct_pyLower_all_ws h)
  simp only [htok, List.filter_nil, joinSpace]
  rfl

theorem analyze_voice_err {text : List Char} (ts : String) (dur : Option ℚ)
    (h : pyStrip text = []) :
    analyze_voice text ts dur = .err ts "No text provided for voice analysis" := by
  unfold analyze_voice
  rw [if_pos h]

theorem analyze_voice_speakingPace {text : List Char} (ts : String) (dur : Option ℚ)
    (h : ¬ pyStrip text = []) :
    (analyze_voice text ts dur).speakingPace = some (calculate_speaking_pace text dur) := by
  unfold analyze_voice
  rw [if_neg h]
  rfl

theorem calculate_speaking_pace_none {text : List Char} (h : ¬ pySplit text = []) :
    calculate_speaking_pace text none =
      { words_per_minute := 180, word_count := (pySplit text).length,
        duration_seconds := none, estimated_duration := true, pace_category := "normal" } := by
  have hl : 0 < (pySplit text).length := List.length_pos.mpr h
  have hw : (0 : ℚ) < ((pySplit text).length : ℚ) := by exact_mod_cast hl
  have hpos : ((pySplit text).length : ℚ) / 180 > 0 := by positivity
  have hdiv : ((pySplit text).length : ℚ) / (((pySplit text).length : ℚ) / 180) = 180 := by
    field_simp
  simp only [calculate_speaking_pace]
  rw [show pyTruthy none = false from rfl]
  simp only [Bool.false_eq_true, if_false]
  rw [if_pos hpos, hdiv]
  have h180 : roundQ 1 (180 : ℚ) = 180 := by decide
  rw [h180, if_neg (by norm_num), if_neg (by norm_num)]
  rfl

theorem calculate_speaking_pace_some {text : List Char} {d : ℚ} (hd : d ≠ 0) :
    (calculate_speaking_pace text (some d)).words_per_minute =
      roundQ 1 (((pySplit text).length : ℚ) / d * 60) := by
  simp only [calculate_speaking_pace]
  rw [show pyTruthy (some d) = true by simp [pyTruthy, hd]]
  simp

/-! ## Claim theorems -/

/-- C1.  For every empty or whitespace-only text, `analyze_sentiment` and
`analyze_voice` both return the error-shaped result (the dict holding only
`timestamp` and `error`, hence no `sentiment`/score fields), for every
stop-word list, sentiment estimator, timestamp and duration; both embedded
functions are total, so neither raises. -/
theorem sentiment_voice_empty_text_error (sw : List (List Char))
    (tbP tbS : List Char → ℚ) (text : List Char) (ts : String) (dur : Option ℚ)
    (h : ∀ c ∈ text, isWS c = true) :
    analyze_sentiment sw tbP tbS text ts =
      .err ts "No meaningful content to analyze after filtering" ∧
    analyze_voice text ts dur = .err ts "No text provided for voice analysis" := by
  constructor
  · unfold analyze_sentiment
    rw [filter_text_all_ws sw h]
    rfl
  · exact analyze_voice_err ts dur ((pyStrip_eq_nil_iff text).mpr h)

/-- C1 witness: the one-space text errors in both scorers. -/
theorem sentiment_voice_empty_text_error_witness :
    analyze_sentiment [] (fun _ => 0) (fun _ => 0) " ".toList "t" =
      .err "t" "No meaningful content to analyze after filtering" ∧
    analyze_voice " ".toList "t" none = .err "t" "No text provided for voice analysis" :=
  sentiment_voice_empty_text_error [] (fun _ => 0) (fun _ => 0) " ".toList "t" none
    (by decide)

/-- C3 (amended).  When the voice scorer returns a speaking-pace block and no
duration was supplied, `words_per_minute` is exactly 180 and the category is
"normal"; when a positive duration is supplied, `words_per_minute` is
`word_count / duration * 60` rounded to one decimal place (the claim's exact
instance — 180 words at `duration = 60` — yields exactly 180.0). -/
theorem speaking_pace_wpm (text : List Char) (ts : String)
    (h : ¬ pyStrip text = []) :
    (analyze_voice text ts none).speakingPace =
      some { words_per_minute := 180, word_count := (pySplit text).length,
             duration_seconds := none, estimated_duration := true,
             pace_category := "normal" } ∧
    (∀ d : ℚ, 0 < d →
      Option.map SpeakingPace.words_per_minute ((analyze_voice text ts (some d)).speakingPace) =
        some (roundQ 1 (((pySplit text).length : ℚ) / d * 60))) ∧
    ((pySplit text).length = 180 →
      Option.map SpeakingPace.words_per_minute ((analyze_voice text ts (some 60)).speakingPace) =
        some 180) := by
  have hsplit : ¬ pySplit text = [] := by
    intro hnil
    exact h ((pyStrip_eq_nil_iff text).mpr ((pySplit_eq_nil_iff text).mp hnil))
  refine ⟨?_, ?_, ?_⟩
  · rw [analyze_voice_speakingPace ts none h, calculate_speaking_pace_none hsplit]
  · intro d hd
    rw [analyze_voice_speakingPace ts (some d) h, Option.map_some',
      calculate_speaking_pace_some (ne_of_gt hd)]
  · intro h180
    rw [analyze_voice_speakingPace ts (some 60) h, Option.map_some',
      calculate_speaking_pace_some (by norm_num : (60 : ℚ) ≠ 0), h180]
    norm_num
    decide

/-- C3 counterexample: at the one-word text "hello" with duration 7 the
returned `words_per_minute` is the rounded 8.6, not the claim's exact
quotient 60/7. -/
theorem speaking_pace_wpm_counterexample :
    Option.map SpeakingPace.words_per_minute
        ((analyze_voice "hello".toList "t" (some 7)).speakingPace) = some (43 / 5) ∧
    ¬ Option.map SpeakingPace.words_per_minute
        ((analyze_voice "hello".toList "t" (some 7)).speakingPace) =
      some ((1 : ℚ) / 7 * 60) := by
  constructor <;> decide

/-- C3 witness: the duration-omitted law at the concrete text
"hello world". -/
theorem speaking_pace_wpm_witness :
    (analyze_voice "hello world".toList "t" none).speakingPace =
      some { words_per_minute := 180, word_count := (pySplit "hello world".toList).length,
             duration_seconds := none, estimated_duration := true,
             pace_category := "normal" } :=
  (speaking_pace_wpm "hello world".toList "t" (by decide)).1

/-- C4 (amended).  A duration of 0 (like a missing one) is falsy, so the
pace computation falls back to the 180-WPM estimate and no division by zero
occurs; a negative duration, however, is truthy and is used as-is, producing
`round(word_count / duration * 60, 1)` — a nonpositive rate categorised
"slow" — rather than the baseline. -/
theorem nonpositive_duration (text : List Char) :
    (calculate_speaking_pace text (some 0)).words_per_minute =
      (calculate_speaking_pace text none).words_per_minute ∧
    (calculate_speaking_pace text (some 0)).pace_category =
      (calculate_speaking_pace text none).pace_category ∧
    (calculate_speaking_pace text (some 0)).estimated_duration = true ∧
    (∀ d : ℚ, d < 0 →
      (calculate_speaking_pace text (some d)).words_per_minute =
        roundQ 1 (((pySplit text).length : ℚ) / d * 60) ∧
      (calculate_speaking_pace text (some d)).pace_category = "slow") := by
  refine ⟨rfl, rfl, rfl, ?_⟩
  intro d hd
  have hne : d ≠ 0 := ne_of_lt hd
  refine ⟨calculate_speaking_pace_some hne, ?_⟩
  have hlt : ((pySplit text).length : ℚ) / d * 60 < 120 := by
    have h1 : (0 : ℚ) ≤ ((pySplit text).length : ℚ) := by positivity
    have h2 : ((pySplit text).length : ℚ) / d ≤ 0 :=
      div_nonpos_of_nonneg_of_nonpos h1 (le_of_lt hd)
    nlinarith
  simp only [calculate_speaking_pace]
  rw [show pyTruthy (some d) = true by simp [pyTruthy, hne]]
  simp only [if_true, Option.getD_some]
  rw [if_pos hlt]

/-- C4 counterexample: a negative duration is not treated as missing — at
text "hello" with duration −60 the returned rate is −1.0, not the 180-WPM
baseline. -/
theorem nonpositive_duration_counterexample :
    (calculate_speaking_pace "hello".toList (some (-60))).words_per_minute = -1 ∧
    ¬ (calculate_speaking_pace "hello".toList (some (-60))).words_per_minute = 180 := by
  constructor <;> decide

/-- C2.  The sentiment and voice scorers are deterministic functions of
their inputs: two scorer calls with identical text/timestamp/duration are
the same value, and through the dispatcher the sentiment and voice fields
are independent of the random draws (the facial scorer's only hidden
state), for every fixed stop-word list and sentiment estimator. -/
theorem scorers_deterministic (sw : List (List Char)) (tbP tbS : List Char → ℚ)
    (d1 d2 : FacialDraws) (text : List Char) (ts : String) (dur : Option ℚ)
    (img : Bool) :
    analyze_sentiment sw tbP tbS text ts = analyze_sentiment sw tbP tbS text ts ∧
    analyze_voice text ts dur = analyze_voice text ts dur ∧
    comprehensiveSentiment (comprehensive_analysis sw tbP tbS d1 text ts dur img) =
      comprehensiveSentiment (comprehensive_analysis sw tbP tbS d2 text ts dur img) ∧
    comprehensiveVoice (comprehensive_analysis sw tbP tbS d1 text ts dur img) =
      comprehensiveVoice (comprehensive_analysis sw tbP tbS d2 text ts dur img) := by
    refine ⟨rfl, rfl, ?_, ?_⟩ <;>
      by_cases h : text = [] ∨ ts = "" <;>
        simp [comprehensive_analysis, h, comprehensiveSentiment, comprehensiveVoice]

/-- C9.  Each of the three aggregation functions returns `None` on the empty
sequence of prior results, and (being total) does not raise. -/
theorem empty_aggregation_none :
    get_overall_sentiment_summary [] = none ∧ get_voice_summary [] = none ∧
    get_facial_summary [] = none :=
  ⟨rfl, rfl, rfl⟩

/-- C10.  Every result of each of the three scorers — success and error
constructors alike — carries the caller-supplied timestamp unchanged. -/
theorem timestamp_passthrough (sw : List (List Char)) (tbP tbS : List Char → ℚ)
    (d : FacialDraws) (text : List Char) (ts : String) (dur : Option ℚ)
    (img : Bool) :
    (analyze_sentiment sw tbP tbS text ts).timestampOf = ts ∧
    (analyze_voice text ts dur).timestampOf = ts ∧
    (analyze_facial_expression d ts img).timestampOf = ts := by
  refine ⟨?_, ?_, rfl⟩
  · simp only [analyze_sentiment]
    split <;> rfl
  · simp only [analyze_voice]
    split <;> rfl

theorem roundQ_uniform_bound {a b : ℚ} (u : ℚ) (h0 : 0 ≤ u) (h1 : u < 1)
    (hab : a ≤ b) (ha : roundQ 3 a = a) (hb : roundQ 3 b = b) :
    a ≤ roundQ 3 (pyUniform a b u) ∧ roundQ 3 (pyUniform a b u) ≤ b := by
  have hl : a ≤ pyUniform a b u := by
    unfold pyUniform; nlinarith
  have hu : pyUniform a b u ≤ b := by
    unfold pyUniform; nlinarith
  constructor
  · calc a = roundQ 3 a := ha.symm
      _ ≤ roundQ 3 (pyUniform a b u) := roundQ_le_roundQ 3 hl
  · calc roundQ 3 (pyUniform a b u) ≤ roundQ 3 b := roundQ_le_roundQ 3 hu
      _ = b := hb

/-- C7.  For every valid random draw, the facial scorer's successful output
has `primary.confidence` within `[0.7, 0.95]` and `professionalism.score`
within `[0.5, 1.0]` (the latter in fact never falls below 0.65, the mean of
the four minimal factors). -/
theorem facial_confidence_professionalism_bounds (d : FacialDraws) (ts : String)
    (img : Bool) (r : FacialOk) (hv : d.Valid)
    (hr : analyze_facial_expression d ts img = .ok r) :
    (0.7 ≤ r.facial_expression.primary.confidence ∧
      r.facial_expression.primary.confidence ≤ 0.95) ∧
    (0.5 ≤ r.professionalism.score ∧ r.professionalism.score ≤ 1) := by
  obtain ⟨hp, hconf, hrest⟩ := hv
  simp only [analyze_facial_expression] at hr
  injection hr with hr
  subst hr
  refine ⟨⟨?_, ?_⟩, ?_⟩
  · exact (roundQ_uniform_bound d.confU hconf.1 hconf.2 (by norm_num)
      (by decide) (by decide)).1
  · exact (roundQ_uniform_bound d.confU hconf.1 hconf.2 (by norm_num)
      (by decide) (by decide)).2
  · show 0.5 ≤ roundQ 3 _ ∧ roundQ 3 _ ≤ 1
    split_ifs <;> exact ⟨by decide, by decide⟩

/-- A concrete all-zeros draw outcome (valid: every raw value is in
`[0, 1)` and every index in range). -/
def sampleDraws : FacialDraws :=
  { primaryIdx := 0, confU := 0, secondaryR := 0, secondaryIdx := 0, secondaryU := 0,
    engagementIdx := 0, engLowU := 0, engMedU := 0, engHighU := 0,
    eyeIdx := 0, eyePoorU := 0, eyeIntU := 0, eyeGoodU := 0, eyeExcU := 0,
    uprightR := 0, leanR := 0, slouchR := 0, headTiltIdx := 0 }

/-- C7 witness: the bounds at the all-zeros draw. -/
theorem facial_confidence_professionalism_bounds_witness :
    ∃ r : FacialOk, analyze_facial_expression sampleDraws "t" false = .ok r ∧
      ((0.7 ≤ r.facial_expression.primary.confidence ∧
        r.facial_expression.primary.confidence ≤ 0.95) ∧
       (0.5 ≤ r.professionalism.score ∧ r.professionalism.score ≤ 1)) :=
  ⟨_, rfl, facial_confidence_professionalism_bounds sampleDraws "t" false _
    (by decide) rfl⟩

/-- C8.  Behind the comprehensive route's validation (non-empty text and
timestamp), a content-level failure inside the sentiment scorer is embedded
as that scorer's error-shaped sub-result while the voice and facial results
are still returned in full; the scorer embeddings are total functions, so no
scorer raises and the response degrades per field. -/
theorem comprehensive_per_field (sw : List (List Char)) (tbP tbS : List Char → ℚ)
    (d : FacialDraws) (text : List Char) (ts : String) (dur : Option ℚ)
    (img : Bool) (msg : String)
    (htext : ¬ text = []) (hts : ¬ ts = "")
    (hserr : analyze_sentiment sw tbP tbS text ts = .err ts msg) :
    comprehensive_analysis sw tbP tbS d text ts dur img =
      .ok { timestamp := ts, sentiment := .err ts msg,
            voice := analyze_voice text ts dur,
            facial := analyze_facial_expression d ts img } := by
  unfold comprehensive_analysis
  rw [if_neg (by push_neg; exact ⟨htext, hts⟩), hserr]

/-- C8 witness: "ab cd" filters to nothing (every token has length at most
2), so the sentiment sub-result is the embedded error while the voice and
facial sub-results are the scorers' full outputs. -/
theorem comprehensive_per_field_witness :
    comprehensive_analysis [] (fun _ => 0) (fun _ => 0) sampleDraws
        "ab cd".toList "t" none false =
      .ok { timestamp := "t",
            sentiment := .err "t" "No meaningful content to analyze after filtering",
            voice := analyze_voice "ab cd".toList "t" none,
            facial := analyze_facial_expression sampleDraws "t" false } :=
  comprehensive_per_field [] (fun _ => 0) (fun _ => 0) sampleDraws
    "ab cd".toList "t" none false _ (by decide) (by decide) (by decide)

theorem detect_foldl (t : List Char) (l : List (List Char)) :
    ∀ acc : List (List Char × Nat) × Nat,
      l.foldl (fun acc filler =>
          let m := countWB filler t
          if m > 0 then (acc.1 ++ [(filler, m)], acc.2 + m) else acc) acc =
        (acc.1 ++ l.filterMap
            (fun q => if 0 < countWB q t then some (q, countWB q t) else none),
         acc.2 + (l.map (fun q => countWB q t)).sum) := by
  induction l with
  | nil => intro acc; simp
  | cons q rest ih =>
    intro acc
    rw [List.foldl_cons, ih]
    by_cases h : 0 < countWB q t
    · simp [h, List.append_assoc, Nat.add_assoc]
    · have h0 : countWB q t = 0 := Nat.eq_zero_of_not_pos h
      simp [h, h0]

theorem mem_filterMap_count {f : List Char → Nat} {l : List (List Char)}
    {p : List Char} {n : Nat} :
    ((p, n) ∈ l.filterMap (fun q => if 0 < f q then some (q, f q) else none)) ↔
      p ∈ l ∧ f p = n ∧ 0 < n := by
  rw [List.mem_filterMap]
  constructor
  · rintro ⟨a, ha, hg⟩
    by_cases hf : 0 < f a
    · rw [if_pos hf] at hg
      simp only [Option.some.injEq, Prod.mk.injEq] at hg
      obtain ⟨rfl, hfa⟩ := hg
      exact ⟨ha, hfa, hfa ▸ hf⟩
    · rw [if_neg hf] at hg
      exact Option.noConfusion hg
  · rintro ⟨hp, hfn, hn⟩
    refine ⟨p, hp, ?_⟩
    rw [if_pos (hfn ▸ hn), hfn]

theorem length_filterMap_count (f : List Char → Nat) (l : List (List Char)) :
    (l.filterMap (fun q => if 0 < f q then some (q, f q) else none)).length =
      (l.filter (fun q => decide (0 < f q))).length := by
  induction l with
  | nil => rfl
  | cons q rest ih =>
    by_cases h : 0 < f q <;> simp [h, ih]

/-- C5.  Filler detection counts, for each phrase of the fixed filler set,
the non-overlapping word-boundary matches in the lowercased text; `total` is
the sum of the per-phrase counts, `breakdown` holds exactly the phrases with
at least one match, `unique_fillers` is the number of distinct matched
phrases (the phrases are pairwise distinct); and on
"um, so, I think this is, like, good" the phrases "um", "so" and "like" are
each counted exactly once. -/
theorem filler_detection_spec (text : List Char) :
    (detect_filler_words text).total =
      (filler_words.map (fun p => countWB p (pyLower text))).sum ∧
    (∀ p n, ((p, n) ∈ (detect_filler_words text).breakdown) ↔
      (p ∈ filler_words ∧ countWB p (pyLower text) = n ∧ 0 < n)) ∧
    (detect_filler_words text).unique_fillers =
      (filler_words.filter (fun p => decide (0 < countWB p (pyLower text)))).length ∧
    filler_words.Nodup ∧
    detect_filler_words "um, so, I think this is, like, good".toList =
      { total := 3,
        breakdown := [("um".toList, 1), ("like".toList, 1), ("so".toList, 1)],
        unique_fillers := 3 } := by
  have hdet : detect_filler_words text =
      { total := (filler_words.map (fun q => countWB q (pyLower text))).sum,
        breakdown := filler_words.filterMap
          (fun q => if 0 < countWB q (pyLower text) then
            some (q, countWB q (pyLower text)) else none),
        unique_fillers := (filler_words.filterMap
          (fun q => if 0 < countWB q (pyLower text) then
            some (q, countWB q (pyLower text)) else none)).length } := by
    simp only [detect_filler_words]
    rw [detect_foldl (pyLower text) filler_words ([], 0)]
    simp
  refine ⟨?_, ?_, ?_, by decide, by decide⟩
  · rw [hdet]
  · intro p n
    rw [hdet]
    exact mem_filterMap_count
  · rw [hdet]
    exact length_filterMap_count _ _

/-- Spec-side count for C6: case-insensitive whole-token matches of the
strong-confidence set in the whitespace-split text. -/
def strongMatches (text : List Char) : Nat :=
  (pySplit (pyLower text)).countP (fun w => decide (w ∈ confidence_strong))

/-- Spec-side count for C6: whole-token matches of the weak-confidence
set. -/
def weakMatches (text : List Char) : Nat :=
  (pySplit (pyLower text)).countP (fun w => decide (w ∈ confidence_weak))

/-- Spec-side count for C6: whole-token matches of the clear-indicator
set. -/
def clearMatches (text : List Char) : Nat :=
  (pySplit (pyLower text)).countP (fun w => decide (w ∈ clarity_clear))

/-- Spec-side count for C6: whole-token matches of the unclear-indicator
set. -/
def unclearMatches (text : List Char) : Nat :=
  (pySplit (pyLower text)).countP (fun w => decide (w ∈ clarity_unclear))

/-- Spec-side quotient for C6: (strong − weak) over max(word count, 1). -/
def confidenceQuotient (text : List Char) : ℚ :=
  ((strongMatches text : ℚ) - (weakMatches text : ℚ)) /
    (max (pySplit (pyLower text)).length 1 : ℕ)

/-- Spec-side quotient for C6: (clear − unclear) over max(word count, 1). -/
def clarityQuotient (text : List Char) : ℚ :=
  ((clearMatches text : ℚ) - (unclearMatches text : ℚ)) /
    (max (pySplit (pyLower text)).length 1 : ℕ)

/-- C6 (amended).  The voice confidence/clarity scores stored in the result
are the quotient (strong − weak matches) / max(word count, 1) — whole-token,
case-insensitive matches, so a multi-word phrase matches only a token equal
to the whole phrase — ROUNDED to four decimal places, while the levels are
derived from the unrounded quotient with thresholds ±0.02 (confidence) and
±0.01 (clarity). -/
theorem confidence_clarity_spec (text : List Char) :
    (analyze_confidence_clarity text).confidence =
      { score := roundQ 4 (confidenceQuotient text),
        level :=
          if confidenceQuotient text > 0.02 then "high"
          else if confidenceQuotient text < -0.02 then "low" else "medium",
        strong_indicators := strongMatches text,
        weak_indicators := weakMatches text } ∧
    (analyze_confidence_clarity text).clarity =
      { score := roundQ 4 (clarityQuotient text),
        level :=
          if clarityQuotient text > 0.01 then "high"
          else if clarityQuotient text < -0.01 then "low" else "medium",
        clear_indicators := clearMatches text,
        unclear_indicators := unclearMatches text } := by
  simp only [strongMatches, weakMatches, clearMatches, unclearMatches,
    confidenceQuotient, clarityQuotient, List.countP_eq_length_filter]
  exact ⟨rfl, rfl⟩

/-- C6 counterexample: on "definitely foo bar" (one strong match among three
words) the stored confidence score is the rounded 0.3333, not the claim's
exact quotient 1/3. -/
theorem confidence_clarity_spec_counterexample :
    (analyze_confidence_clarity "definitely foo bar".toList).confidence.score =
      3333 / 10000 ∧
    ¬ (analyze_confidence_clarity "definitely foo bar".toList).confidence.score =
      ((1 : ℚ) - 0) / 3 := by
  constructor <;> decide

end Spec2Proof
